import Mathlib

/-!
A Lean model of the normalization layer in `qbreader/types.py`: the taxonomy
enums (`Category`, `Subcategory`, `Difficulty`), the question entities
(`Tossup`, `Bonus`) with their `from_json` constructors, and the
`QueryResponse` aggregate.

Decoded JSON values are modelled by the inductive type `JVal`; a decoded JSON
object (a Python `dict` produced by `json.loads`) is modelled as an
association list `Obj` whose keys are distinct in any real payload.  Python
exception propagation is modelled with `Except PyErr`; the field types of the
entities are `JVal` because Python performs no runtime type enforcement on
them.
-/

/-- A decoded JSON value as produced by Python's `json.loads`:
strings, numbers (only integers occur in this schema), booleans, `None`,
lists, and dicts with string keys. -/
inductive JVal where
  | jstr (s : String)
  | jnum (n : Int)
  | jbool (b : Bool)
  | jnull
  | jarr (xs : List JVal)
  | jobj (fs : List (String × JVal))

/-- A decoded JSON object: an association list standing for a Python dict
(keys are distinct in any dict that actually arises from JSON decoding). -/
abbrev Obj := List (String × JVal)

/-- Python exceptions relevant to this layer: `KeyError` (a missing dict
field, carrying the offending key), `ValueError` (an invalid enum value,
carrying the offending raw value) and `TypeError`. -/
inductive PyErr where
  | keyError (k : String)
  | valueError (v : String)
  | typeError (m : String)
deriving DecidableEq

/-- Python truthiness (`bool(x)`) for the modelled values: empty strings,
zero, `False`, `None`, empty lists and empty dicts are falsy. -/
def pyTruthy : JVal → Bool
  | .jstr s => !(s == "")
  | .jnum n => !(n == 0)
  | .jbool b => b
  | .jnull => false
  | .jarr xs => !xs.isEmpty
  | .jobj fs => !fs.isEmpty

mutual

/-- Python `repr` of a decoded JSON value.  String escaping and quote
selection are not modelled; this rendering only feeds `Difficulty` parsing,
where any quoted or bracketed form fails to match the canonical numeric
strings regardless. -/
def pyRepr : JVal → String
  | .jstr s => "\x27" ++ s ++ "\x27"
  | .jnum n => toString n
  | .jbool b => if b then "True" else "False"
  | .jnull => "None"
  | .jarr xs => "[" ++ String.intercalate ", " (pyReprList xs) ++ "]"
  | .jobj fs => "\x7b" ++ String.intercalate ", " (pyReprObj fs) ++ "\x7d"

/-- `repr` applied to each element of a Python list. -/
def pyReprList : List JVal → List String
  | [] => []
  | x :: xs => pyRepr x :: pyReprList xs

/-- `repr` applied to each entry of a Python dict. -/
def pyReprObj : List (String × JVal) → List String
  | [] => []
  | (k, v) :: fs => ("\x27" ++ k ++ "\x27: " ++ pyRepr v) :: pyReprObj fs

end

/-- Python `str(x)` for the modelled values: the identity on strings, decimal
rendering of integers, `repr` for containers. -/
def pyStr : JVal → String
  | .jstr s => s
  | .jnum n => toString n
  | .jbool b => if b then "True" else "False"
  | .jnull => "None"
  | .jarr xs => pyRepr (.jarr xs)
  | .jobj fs => pyRepr (.jobj fs)

/-- The value stored under key `k`, if any (Python `k in json` / `json[k]`
without the exception). -/
def getField (json : Obj) (k : String) : Option JVal :=
  (json.find? (fun p => p.1 == k)).map (fun p => p.2)

/-- Python `json[k]` on a dict: the stored value, or a `KeyError`. -/
def lookup (json : Obj) (k : String) : Except PyErr JVal :=
  match getField json k with
  | some v => .ok v
  | none => .error (.keyError k)

/-- Python `json.get(k, d)` on a dict: the stored value, or the default. -/
def getD (json : Obj) (k : String) (d : JVal) : JVal :=
  (getField json k).getD d

/-- Python iteration over a value, as materialized by `tuple(x)` or a `for`
loop: lists yield their elements, strings yield their characters as one-char
strings, dicts yield their keys; numbers, booleans and `None` raise
`TypeError`. -/
def pyIter : JVal → Except PyErr (List JVal)
  | .jarr xs => .ok xs
  | .jstr s => .ok (s.data.map (fun c => .jstr (String.singleton c)))
  | .jobj fs => .ok (fs.map (fun p => .jstr p.1))
  | _ => .error (.typeError "object is not iterable")

/-- Python `v[k]` with a string key: dict lookup (possibly `KeyError`);
subscripting any non-dict value with a string raises `TypeError`. -/
def pyIndex (v : JVal) (k : String) : Except PyErr JVal :=
  match v with
  | .jobj fs => lookup fs k
  | _ => .error (.typeError "value is not subscriptable by a string")

/-- A value passed where a dict is dereferenced by string keys: any non-dict
raises `TypeError` at its first subscript. -/
def asObj : JVal → Except PyErr Obj
  | .jobj fs => .ok fs
  | _ => .error (.typeError "value is not a dict")

/-- Python `str(x)` via an entity `__str__` that returns a stored value: a
stored non-string raises `TypeError` at the `str()` call or inside
`str.join`. -/
def strOfJVal : JVal → Except PyErr String
  | .jstr s => .ok s
  | _ => .error (.typeError "expected a str")

/-- `Category` from `qbreader/types.py` (`enum.StrEnum`). -/
inductive Category where
  | LITERATURE
  | HISTORY
  | SCIENCE
  | FINE_ARTS
  | RELIGION
  | MYTHOLOGY
  | PHILOSOPHY
  | SOCIAL_SCIENCE
  | CURRENT_EVENTS
  | GEOGRAPHY
  | OTHER_ACADEMIC
  | TRASH
deriving DecidableEq, Fintype

/-- The canonical string value of each `Category` member. -/
def Category.canonical : Category → String
  | .LITERATURE => "Literature"
  | .HISTORY => "History"
  | .SCIENCE => "Science"
  | .FINE_ARTS => "Fine Arts"
  | .RELIGION => "Religion"
  | .MYTHOLOGY => "Mythology"
  | .PHILOSOPHY => "Philosophy"
  | .SOCIAL_SCIENCE => "Social Science"
  | .CURRENT_EVENTS => "Current Events"
  | .GEOGRAPHY => "Geography"
  | .OTHER_ACADEMIC => "Other Academic"
  | .TRASH => "Trash"

/-- The members of `Category` in declaration order. -/
def Category.values : List Category :=
  [.LITERATURE, .HISTORY, .SCIENCE, .FINE_ARTS, .RELIGION, .MYTHOLOGY,
   .PHILOSOPHY, .SOCIAL_SCIENCE, .CURRENT_EVENTS, .GEOGRAPHY,
   .OTHER_ACADEMIC, .TRASH]

/-- By-value lookup of `Category` on a string: the first member whose
canonical string equals `s` exactly, else `ValueError`. -/
def Category.ofString (s : String) : Except PyErr Category :=
  match Category.values.find? (fun c => c.canonical == s) with
  | some c => .ok c
  | none => .error (.valueError s)

/-- Python `Category(raw)`: by-value lookup of an `enum.StrEnum`.  Only an
exact match against a member's canonical string succeeds; anything else
(including every non-string value, since no member's string value equals a
non-string) raises `ValueError` (the `InvalidEnumValue` failure). -/
def Category.parse (v : JVal) : Except PyErr Category :=
  match v with
  | .jstr s => Category.ofString s
  | w => .error (.valueError (pyStr w))

/-- `Subcategory` from `qbreader/types.py` (`enum.StrEnum`). -/
inductive Subcategory where
  | AMERICAN_LITERATURE
  | BRITISH_LITERATURE
  | CLASSICAL_LITERATURE
  | EUROPEAN_LITERATURE
  | WORLD_LITERATURE
  | OTHER_LITERATURE
  | AMERICAN_HISTORY
  | ANCIENT_HISTORY
  | EUROPEAN_HISTORY
  | WORLD_HISTORY
  | OTHER_HISTORY
  | BIOLOGY
  | CHEMISTRY
  | PHYSICS
  | MATH
  | OTHER_SCIENCE
  | VISUAL_FINE_ARTS
  | AUDITORY_FINE_ARTS
  | OTHER_FINE_ARTS
deriving DecidableEq, Fintype

/-- The canonical string value of each `Subcategory` member. -/
def Subcategory.canonical : Subcategory → String
  | .AMERICAN_LITERATURE => "American Literature"
  | .BRITISH_LITERATURE => "British Literature"
  | .CLASSICAL_LITERATURE => "Classical Literature"
  | .EUROPEAN_LITERATURE => "European Literature"
  | .WORLD_LITERATURE => "World Literature"
  | .OTHER_LITERATURE => "Other Literature"
  | .AMERICAN_HISTORY => "American History"
  | .ANCIENT_HISTORY => "Ancient History"
  | .EUROPEAN_HISTORY => "European History"
  | .WORLD_HISTORY => "World History"
  | .OTHER_HISTORY => "Other History"
  | .BIOLOGY => "Biology"
  | .CHEMISTRY => "Chemistry"
  | .PHYSICS => "Physics"
  | .MATH => "Math"
  | .OTHER_SCIENCE => "Other Science"
  | .VISUAL_FINE_ARTS => "Visual Fine Arts"
  | .AUDITORY_FINE_ARTS => "Auditory Fine Arts"
  | .OTHER_FINE_ARTS => "Other Fine Arts"

/-- The members of `Subcategory` in declaration order. -/
def Subcategory.values : List Subcategory :=
  [.AMERICAN_LITERATURE, .BRITISH_LITERATURE, .CLASSICAL_LITERATURE,
   .EUROPEAN_LITERATURE, .WORLD_LITERATURE, .OTHER_LITERATURE,
   .AMERICAN_HISTORY, .ANCIENT_HISTORY, .EUROPEAN_HISTORY, .WORLD_HISTORY,
   .OTHER_HISTORY, .BIOLOGY, .CHEMISTRY, .PHYSICS, .MATH, .OTHER_SCIENCE,
   .VISUAL_FINE_ARTS, .AUDITORY_FINE_ARTS, .OTHER_FINE_ARTS]

/-- By-value lookup of `Subcategory` on a string. -/
def Subcategory.ofString (s : String) : Except PyErr Subcategory :=
  match Subcategory.values.find? (fun c => c.canonical == s) with
  | some c => .ok c
  | none => .error (.valueError s)

/-- Python `Subcategory(raw)`: by-value lookup of an `enum.StrEnum`. -/
def Subcategory.parse (v : JVal) : Except PyErr Subcategory :=
  match v with
  | .jstr s => Subcategory.ofString s
  | w => .error (.valueError (pyStr w))

/-- `Difficulty` from `qbreader/types.py` (`enum.StrEnum` with numeric-string
values `"0"`..`"10"`). -/
inductive Difficulty where
  | UNRATED
  | MS
  | HS_EASY
  | HS_REGS
  | HS_HARD
  | HS_NATS
  | ONE_DOT
  | TWO_DOT
  | THREE_DOT
  | FOUR_DOT
  | OPEN
deriving DecidableEq, Fintype

/-- The canonical (numeric-string) value of each `Difficulty` member. -/
def Difficulty.canonical : Difficulty → String
  | .UNRATED => "0"
  | .MS => "1"
  | .HS_EASY => "2"
  | .HS_REGS => "3"
  | .HS_HARD => "4"
  | .HS_NATS => "5"
  | .ONE_DOT => "6"
  | .TWO_DOT => "7"
  | .THREE_DOT => "8"
  | .FOUR_DOT => "9"
  | .OPEN => "10"

/-- The members of `Difficulty` in declaration order. -/
def Difficulty.values : List Difficulty :=
  [.UNRATED, .MS, .HS_EASY, .HS_REGS, .HS_HARD, .HS_NATS, .ONE_DOT,
   .TWO_DOT, .THREE_DOT, .FOUR_DOT, .OPEN]

/-- Python `Difficulty(s)`: by-value lookup of an `enum.StrEnum`.  The
callers in `from_json` always pass `str(json["difficulty"])`, so the
argument here is already a string. -/
def Difficulty.parse (s : String) : Except PyErr Difficulty :=
  match Difficulty.values.find? (fun d => d.canonical == s) with
  | some d => .ok d
  | none => .error (.valueError s)

/-- The `Tossup` entity.  Non-enum fields are `JVal` because Python stores
whatever the payload carried, without runtime type checks. -/
structure Tossup where
  question : JVal
  formatted_answer : JVal
  answer : JVal
  category : Category
  subcategory : Subcategory
  set : JVal
  year : JVal
  packet_number : JVal
  question_number : JVal
  difficulty : Difficulty

/-- `Tossup.__init__`: stores its arguments, substituting `answer` for
`formatted_answer` when the latter is falsy
(`formatted_answer if formatted_answer else answer`). -/
def Tossup.init (question formatted_answer answer : JVal) (category : Category)
    (subcategory : Subcategory) (set year packet_number question_number : JVal)
    (difficulty : Difficulty) : Tossup :=
  { question := question
    formatted_answer := if pyTruthy formatted_answer then formatted_answer else answer
    answer := answer
    category := category
    subcategory := subcategory
    set := set
    year := year
    packet_number := packet_number
    question_number := question_number
    difficulty := difficulty }

/-- `Tossup.from_json`.  The match chain reflects Python's left-to-right
evaluation of the keyword arguments; the default operand of
`json.get("formatted_answer", json["answer"])` evaluates `json["answer"]`
before the `get`, and the later `answer=json["answer"]` argument repeats that
pure lookup with the same result, so the two share one binding here. -/
def Tossup.from_json (json : Obj) : Except PyErr Tossup :=
  match lookup json "question" with
  | .error e => .error e
  | .ok question =>
  match lookup json "answer" with
  | .error e => .error e
  | .ok answer =>
  match lookup json "category" with
  | .error e => .error e
  | .ok cv =>
  match Category.parse cv with
  | .error e => .error e
  | .ok category =>
  match lookup json "subcategory" with
  | .error e => .error e
  | .ok scv =>
  match Subcategory.parse scv with
  | .error e => .error e
  | .ok subcategory =>
  match lookup json "setName" with
  | .error e => .error e
  | .ok set =>
  match lookup json "setYear" with
  | .error e => .error e
  | .ok year =>
  match lookup json "packetNumber" with
  | .error e => .error e
  | .ok packet_number =>
  match lookup json "questionNumber" with
  | .error e => .error e
  | .ok question_number =>
  match lookup json "difficulty" with
  | .error e => .error e
  | .ok dv =>
  match Difficulty.parse (pyStr dv) with
  | .error e => .error e
  | .ok difficulty =>
    .ok (Tossup.init question (getD json "formatted_answer" answer)
      answer category subcategory set year packet_number question_number
      difficulty)

/-- The `Bonus` entity.  The three sequences are the results of Python
`tuple(...)` conversions; their elements are `JVal` for the same reason as in
`Tossup`. -/
structure Bonus where
  leadin : JVal
  parts : List JVal
  formatted_answers : List JVal
  answers : List JVal
  category : Category
  subcategory : Subcategory
  set : JVal
  year : JVal
  packet_number : JVal
  question_number : JVal
  difficulty : Difficulty

/-- `Bonus.__init__`: converts `parts`, the falsy-fallback choice of
`formatted_answers`, and `answers` to tuples (in assignment order), which can
raise `TypeError` on non-iterable input. -/
def Bonus.init (leadin parts formatted_answers answers : JVal)
    (category : Category) (subcategory : Subcategory)
    (set year packet_number question_number : JVal)
    (difficulty : Difficulty) : Except PyErr Bonus :=
  match pyIter parts with
  | .error e => .error e
  | .ok partsT =>
  match pyIter (if pyTruthy formatted_answers then formatted_answers else answers) with
  | .error e => .error e
  | .ok faT =>
  match pyIter answers with
  | .error e => .error e
  | .ok answersT =>
    .ok { leadin := leadin
          parts := partsT
          formatted_answers := faT
          answers := answersT
          category := category
          subcategory := subcategory
          set := set
          year := year
          packet_number := packet_number
          question_number := question_number
          difficulty := difficulty }

/-- `Bonus.from_json`.  Same conventions as `Tossup.from_json`; the default
operand of `json.get("formatted_answers", json["answers"])` evaluates
`json["answers"]` first, and the later `answers=json["answers"]` argument
repeats that pure lookup with the same result, so the two share one binding
here. -/
def Bonus.from_json (json : Obj) : Except PyErr Bonus :=
  match lookup json "leadin" with
  | .error e => .error e
  | .ok leadin =>
  match lookup json "parts" with
  | .error e => .error e
  | .ok parts =>
  match lookup json "answers" with
  | .error e => .error e
  | .ok answers =>
  match lookup json "category" with
  | .error e => .error e
  | .ok cv =>
  match Category.parse cv with
  | .error e => .error e
  | .ok category =>
  match lookup json "subcategory" with
  | .error e => .error e
  | .ok scv =>
  match Subcategory.parse scv with
  | .error e => .error e
  | .ok subcategory =>
  match lookup json "setName" with
  | .error e => .error e
  | .ok set =>
  match lookup json "setYear" with
  | .error e => .error e
  | .ok year =>
  match lookup json "packetNumber" with
  | .error e => .error e
  | .ok packet_number =>
  match lookup json "questionNumber" with
  | .error e => .error e
  | .ok question_number =>
  match lookup json "difficulty" with
  | .error e => .error e
  | .ok dv =>
  match Difficulty.parse (pyStr dv) with
  | .error e => .error e
  | .ok difficulty =>
    Bonus.init leadin parts (getD json "formatted_answers" answers)
      answers category subcategory set year packet_number question_number
      difficulty

/-- A Python list comprehension `[f(x) for x in items]` under exception
semantics: elements are processed left to right and the first exception
aborts the whole comprehension. -/
def listComp {α β : Type} (f : α → Except PyErr β) : List α → Except PyErr (List β)
  | [] => .ok []
  | x :: xs =>
    match f x with
    | .error e => .error e
    | .ok y =>
      match listComp f xs with
      | .error e => .error e
      | .ok ys => .ok (y :: ys)

/-- One element of `tossups.questionArray` handed to `Tossup.from_json`: a
non-dict element fails at its first string subscript. -/
def parseTossupItem (v : JVal) : Except PyErr Tossup :=
  match asObj v with
  | .error e => .error e
  | .ok fs => Tossup.from_json fs

/-- One element of `bonuses.questionArray` handed to `Bonus.from_json`. -/
def parseBonusItem (v : JVal) : Except PyErr Bonus :=
  match asObj v with
  | .error e => .error e
  | .ok fs => Bonus.from_json fs

/-- The `QueryResponse` aggregate. -/
structure QueryResponse where
  tossups : List Tossup
  bonuses : List Bonus
  tossups_found : JVal
  bonuses_found : JVal
  query_string : JVal

/-- `QueryResponse.from_json`.  The keyword arguments evaluate left to right:
the tossup comprehension, the bonus comprehension, then the two counts and
the query string.  The second and third evaluations of `json["tossups"]` and
`json["bonuses"]` are pure repetitions of the first and are shared here. -/
def QueryResponse.from_json (json : Obj) : Except PyErr QueryResponse :=
  match lookup json "tossups" with
  | .error e => .error e
  | .ok tv =>
  match pyIndex tv "questionArray" with
  | .error e => .error e
  | .ok ta =>
  match pyIter ta with
  | .error e => .error e
  | .ok tItems =>
  match listComp parseTossupItem tItems with
  | .error e => .error e
  | .ok tossups =>
  match lookup json "bonuses" with
  | .error e => .error e
  | .ok bv =>
  match pyIndex bv "questionArray" with
  | .error e => .error e
  | .ok ba =>
  match pyIter ba with
  | .error e => .error e
  | .ok bItems =>
  match listComp parseBonusItem bItems with
  | .error e => .error e
  | .ok bonuses =>
  match pyIndex tv "count" with
  | .error e => .error e
  | .ok tossups_found =>
  match pyIndex bv "count" with
  | .error e => .error e
  | .ok bonuses_found =>
  match lookup json "queryString" with
  | .error e => .error e
  | .ok query_string =>
    .ok { tossups := tossups
          bonuses := bonuses
          tossups_found := tossups_found
          bonuses_found := bonuses_found
          query_string := query_string }

/-- `Tossup.__str__` under `str()`: returns `self.question`, with the
`TypeError` that `str()` raises when `__str__` returns a non-string. -/
def Tossup.render (t : Tossup) : Except PyErr String :=
  strOfJVal t.question

/-- `Bonus.__str__`: `"\n".join(self.parts)`, where `str.join` raises
`TypeError` on a non-string element. -/
def Bonus.render (b : Bonus) : Except PyErr String :=
  match listComp strOfJVal b.parts with
  | .error e => .error e
  | .ok ss => .ok (String.intercalate "\n" ss)

/-- `QueryResponse.__str__`: the tossup renderings joined by `"\n\n"`, then
`"\n\n\n"`, then the bonus renderings joined by `"\n\n"`. -/
def QueryResponse.render (qr : QueryResponse) : Except PyErr String :=
  match listComp Tossup.render qr.tossups with
  | .error e => .error e
  | .ok ts =>
  match listComp Bonus.render qr.bonuses with
  | .error e => .error e
  | .ok bs =>
    .ok (String.intercalate "\n\n" ts ++ "\n\n\n" ++ String.intercalate "\n\n" bs)

/-! Concrete payloads and the entities they normalize to, used to evaluate
the definitions on closed inputs. -/

/-- A well-formed tossup payload with no `formatted_answer` key. -/
def demoTossupJson : Obj :=
  [("question", .jstr "Q?"), ("answer", .jstr "A"),
   ("category", .jstr "Science"), ("subcategory", .jstr "Biology"),
   ("setName", .jstr "Demo Set"), ("setYear", .jnum 2023),
   ("packetNumber", .jnum 1), ("questionNumber", .jnum 2),
   ("difficulty", .jnum 3)]

/-- The entity `Tossup.from_json demoTossupJson` constructs. -/
def demoTossup : Tossup :=
  { question := .jstr "Q?"
    formatted_answer := .jstr "A"
    answer := .jstr "A"
    category := .SCIENCE
    subcategory := .BIOLOGY
    set := .jstr "Demo Set"
    year := .jnum 2023
    packet_number := .jnum 1
    question_number := .jnum 2
    difficulty := .HS_REGS }

/-- A well-formed bonus payload with three parallel parts and answers and no
`formatted_answers` key. -/
def demoBonusJson : Obj :=
  [("leadin", .jstr "L"),
   ("parts", .jarr [.jstr "p1", .jstr "p2", .jstr "p3"]),
   ("answers", .jarr [.jstr "a1", .jstr "a2", .jstr "a3"]),
   ("category", .jstr "Science"), ("subcategory", .jstr "Chemistry"),
   ("setName", .jstr "Demo Set"), ("setYear", .jnum 2022),
   ("packetNumber", .jnum 4), ("questionNumber", .jnum 5),
   ("difficulty", .jstr "7")]

/-- The entity `Bonus.from_json demoBonusJson` constructs. -/
def demoBonus : Bonus :=
  { leadin := .jstr "L"
    parts := [.jstr "p1", .jstr "p2", .jstr "p3"]
    formatted_answers := [.jstr "a1", .jstr "a2", .jstr "a3"]
    answers := [.jstr "a1", .jstr "a2", .jstr "a3"]
    category := .SCIENCE
    subcategory := .CHEMISTRY
    set := .jstr "Demo Set"
    year := .jnum 2022
    packet_number := .jnum 4
    question_number := .jnum 5
    difficulty := .TWO_DOT }

/-- A bonus payload whose `parts` and `answers` arrays have different
lengths (one part, two answers); every required key is present and valid. -/
def mismatchedBonusJson : Obj :=
  [("leadin", .jstr "L"),
   ("parts", .jarr [.jstr "p1"]),
   ("answers", .jarr [.jstr "a1", .jstr "a2"]),
   ("category", .jstr "History"), ("subcategory", .jstr "Ancient History"),
   ("setName", .jstr "Demo Set"), ("setYear", .jnum 2021),
   ("packetNumber", .jnum 2), ("questionNumber", .jnum 3),
   ("difficulty", .jstr "4")]

/-- The entity `Bonus.from_json mismatchedBonusJson` constructs. -/
def mismatchedBonus : Bonus :=
  { leadin := .jstr "L"
    parts := [.jstr "p1"]
    formatted_answers := [.jstr "a1", .jstr "a2"]
    answers := [.jstr "a1", .jstr "a2"]
    category := .HISTORY
    subcategory := .ANCIENT_HISTORY
    set := .jstr "Demo Set"
    year := .jnum 2021
    packet_number := .jnum 2
    question_number := .jnum 3
    difficulty := .HS_HARD }

/-- A tossup payload that lacks `setName` and carries an invalid category,
so the category failure is evaluated before the missing key is reached. -/
def noSetNameBadCatJson : Obj :=
  [("question", .jstr "Q?"), ("answer", .jstr "A"),
   ("category", .jstr "Bogus"), ("subcategory", .jstr "Biology"),
   ("setYear", .jnum 2023), ("packetNumber", .jnum 1),
   ("questionNumber", .jnum 2), ("difficulty", .jnum 3)]

/-- A query-endpoint payload with one tossup, one bonus, and a tossup count
(57) exceeding the length of the returned tossup page. -/
def demoQueryJson : Obj :=
  [("tossups", .jobj
      [("questionArray", .jarr [.jobj demoTossupJson]), ("count", .jnum 57)]),
   ("bonuses", .jobj
      [("questionArray", .jarr [.jobj demoBonusJson]), ("count", .jnum 3)]),
   ("queryString", .jstr "science")]

/-- The aggregate `QueryResponse.from_json demoQueryJson` constructs. -/
def demoQueryResponse : QueryResponse :=
  { tossups := [demoTossup]
    bonuses := [demoBonus]
    tossups_found := .jnum 57
    bonuses_found := .jnum 3
    query_string := .jstr "science" }

/-- A tossup payload missing the required `answer` key. -/
def noAnswerTossupJson : Obj :=
  [("question", .jstr "Q2?"),
   ("category", .jstr "Science"), ("subcategory", .jstr "Biology"),
   ("setName", .jstr "Demo Set"), ("setYear", .jnum 2023),
   ("packetNumber", .jnum 1), ("questionNumber", .jnum 3),
   ("difficulty", .jnum 3)]

/-- A query-endpoint payload whose second tossup record is malformed
(missing `answer`), while the first tossup record is well-formed. -/
def badQueryJson : Obj :=
  [("tossups", .jobj
      [("questionArray", .jarr [.jobj demoTossupJson, .jobj noAnswerTossupJson]),
       ("count", .jnum 2)]),
   ("bonuses", .jobj
      [("questionArray", .jarr []), ("count", .jnum 0)]),
   ("queryString", .jstr "q")]

/-! Helper lemmas about the embedding. -/

theorem lookup_ok_iff {json : Obj} {k : String} {v : JVal} :
    lookup json k = .ok v ↔ getField json k = some v := by
  unfold lookup
  cases h : getField json k <;> simp

theorem lookup_none {json : Obj} {k : String} (h : getField json k = none) :
    lookup json k = .error (.keyError k) := by
  unfold lookup
  rw [h]

theorem getField_cons_self {k : String} {v : JVal} {base : Obj} :
    getField ((k, v) :: base) k = some v := by
  simp [getField, List.find?_cons_of_pos]

theorem getField_cons_ne {k k' : String} {v : JVal} {base : Obj}
    (h : (k == k') = false) :
    getField ((k, v) :: base) k' = getField base k' := by
  simp only [getField, List.find?]
  rw [h]

theorem category_parse_ok_canonical {s : String} {c : Category}
    (h : Category.parse (.jstr s) = .ok c) : Category.canonical c = s := by
  have h' : Category.ofString s = .ok c := h
  unfold Category.ofString at h'
  split at h'
  · rename_i c0 hf
    have hb := List.find?_some hf
    cases h'
    exact eq_of_beq hb
  · exact Except.noConfusion h'

theorem category_parse_not_canonical {s : String}
    (h : ∀ c : Category, Category.canonical c ≠ s) :
    Category.parse (.jstr s) = .error (.valueError s) := by
  show Category.ofString s = .error (.valueError s)
  unfold Category.ofString
  have hf : Category.values.find? (fun c => Category.canonical c == s) = none := by
    rw [List.find?_eq_none]
    intro c _
    simpa using h c
  rw [hf]

theorem subcategory_parse_ok_canonical {s : String} {c : Subcategory}
    (h : Subcategory.parse (.jstr s) = .ok c) : Subcategory.canonical c = s := by
  have h' : Subcategory.ofString s = .ok c := h
  unfold Subcategory.ofString at h'
  split at h'
  · rename_i c0 hf
    have hb := List.find?_some hf
    cases h'
    exact eq_of_beq hb
  · exact Except.noConfusion h'

theorem subcategory_parse_not_canonical {s : String}
    (h : ∀ c : Subcategory, Subcategory.canonical c ≠ s) :
    Subcategory.parse (.jstr s) = .error (.valueError s) := by
  show Subcategory.ofString s = .error (.valueError s)
  unfold Subcategory.ofString
  have hf : Subcategory.values.find? (fun c => Subcategory.canonical c == s) = none := by
    rw [List.find?_eq_none]
    intro c _
    simpa using h c
  rw [hf]

theorem difficulty_parse_ok_canonical {s : String} {d : Difficulty}
    (h : Difficulty.parse s = .ok d) : Difficulty.canonical d = s := by
  unfold Difficulty.parse at h
  split at h
  · rename_i d0 hf
    have hb := List.find?_some hf
    cases h
    exact eq_of_beq hb
  · exact Except.noConfusion h

theorem difficulty_parse_not_canonical {s : String}
    (h : ∀ d : Difficulty, Difficulty.canonical d ≠ s) :
    Difficulty.parse s = .error (.valueError s) := by
  unfold Difficulty.parse
  have hf : Difficulty.values.find? (fun d => Difficulty.canonical d == s) = none := by
    rw [List.find?_eq_none]
    intro d _
    simpa using h d
  rw [hf]

theorem listComp_ok_length {α β : Type} {f : α → Except PyErr β} :
    ∀ {l : List α} {ys : List β}, listComp f l = .ok ys → ys.length = l.length := by
  intro l
  induction l with
  | nil =>
    intro ys h
    simp only [listComp] at h
    cases h
    rfl
  | cons x xs ih =>
    intro ys h
    simp only [listComp] at h
    split at h
    · exact Except.noConfusion h
    split at h
    · exact Except.noConfusion h
    cases h
    simp [ih (by assumption)]

theorem listComp_append_error {α β : Type} {f : α → Except PyErr β} {e : PyErr} :
    ∀ {pre : List α} {x : α} {post : List α},
      (∀ y ∈ pre, ∃ r, f y = .ok r) → f x = .error e →
      listComp f (pre ++ x :: post) = .error e := by
  intro pre
  induction pre with
  | nil =>
    intro x post _ hx
    simp [listComp, hx]
  | cons y ys ih =>
    intro x post hpre hx
    obtain ⟨r, hr⟩ := hpre y (by simp)
    have htail : listComp f (ys ++ x :: post) = .error e :=
      ih (fun z hz => hpre z (List.mem_cons_of_mem y hz)) hx
    simp only [List.cons_append, listComp, hr, List.append_eq, htail]

theorem listComp_map_jstr :
    ∀ ss : List String, listComp strOfJVal (ss.map JVal.jstr) = .ok ss := by
  intro ss
  induction ss with
  | nil => rfl
  | cons s ss ih => simp only [List.map_cons, listComp, strOfJVal, ih]

theorem tossup_from_json_inv {json : Obj} {t : Tossup}
    (h : Tossup.from_json json = .ok t) :
    ∃ q a cv c scv sc st y pn qn dv d,
      getField json "question" = some q ∧
      getField json "answer" = some a ∧
      getField json "category" = some cv ∧ Category.parse cv = .ok c ∧
      getField json "subcategory" = some scv ∧ Subcategory.parse scv = .ok sc ∧
      getField json "setName" = some st ∧
      getField json "setYear" = some y ∧
      getField json "packetNumber" = some pn ∧
      getField json "questionNumber" = some qn ∧
      getField json "difficulty" = some dv ∧
      Difficulty.parse (pyStr dv) = .ok d ∧
      t = Tossup.init q (getD json "formatted_answer" a) a c sc st y pn qn d := by
  unfold Tossup.from_json at h
  split at h
  · exact Except.noConfusion h
  rename_i q hq
  split at h
  · exact Except.noConfusion h
  rename_i a ha
  split at h
  · exact Except.noConfusion h
  rename_i cv hcv
  split at h
  · exact Except.noConfusion h
  rename_i c hc
  split at h
  · exact Except.noConfusion h
  rename_i scv hscv
  split at h
  · exact Except.noConfusion h
  rename_i sc hsc
  split at h
  · exact Except.noConfusion h
  rename_i st hst
  split at h
  · exact Except.noConfusion h
  rename_i y hy
  split at h
  · exact Except.noConfusion h
  rename_i pn hpn
  split at h
  · exact Except.noConfusion h
  rename_i qn hqn
  split at h
  · exact Except.noConfusion h
  rename_i dv hdv
  split at h
  · exact Except.noConfusion h
  rename_i d hd
  cases h
  rw [lookup_ok_iff] at hq ha hcv hscv hst hy hpn hqn hdv
  exact ⟨q, a, cv, c, scv, sc, st, y, pn, qn, dv, d,
    hq, ha, hcv, hc, hscv, hsc, hst, hy, hpn, hqn, hdv, hd, rfl⟩

theorem bonus_from_json_inv {json : Obj} {b : Bonus}
    (h : Bonus.from_json json = .ok b) :
    ∃ l pv av cv c scv sc st y pn qn dv d ps fas as_,
      getField json "leadin" = some l ∧
      getField json "parts" = some pv ∧
      getField json "answers" = some av ∧
      getField json "category" = some cv ∧ Category.parse cv = .ok c ∧
      getField json "subcategory" = some scv ∧ Subcategory.parse scv = .ok sc ∧
      getField json "setName" = some st ∧
      getField json "setYear" = some y ∧
      getField json "packetNumber" = some pn ∧
      getField json "questionNumber" = some qn ∧
      getField json "difficulty" = some dv ∧
      Difficulty.parse (pyStr dv) = .ok d ∧
      pyIter pv = .ok ps ∧
      pyIter (if pyTruthy (getD json "formatted_answers" av) then
        getD json "formatted_answers" av else av) = .ok fas ∧
      pyIter av = .ok as_ ∧
      b = { leadin := l, parts := ps, formatted_answers := fas, answers := as_,
            category := c, subcategory := sc, set := st, year := y,
            packet_number := pn, question_number := qn, difficulty := d } := by
  unfold Bonus.from_json at h
  split at h
  · exact Except.noConfusion h
  rename_i l hl
  split at h
  · exact Except.noConfusion h
  rename_i pv hpv
  split at h
  · exact Except.noConfusion h
  rename_i av hav
  split at h
  · exact Except.noConfusion h
  rename_i cv hcv
  split at h
  · exact Except.noConfusion h
  rename_i c hc
  split at h
  · exact Except.noConfusion h
  rename_i scv hscv
  split at h
  · exact Except.noConfusion h
  rename_i sc hsc
  split at h
  · exact Except.noConfusion h
  rename_i st hst
  split at h
  · exact Except.noConfusion h
  rename_i y hy
  split at h
  · exact Except.noConfusion h
  rename_i pn hpn
  split at h
  · exact Except.noConfusion h
  rename_i qn hqn
  split at h
  · exact Except.noConfusion h
  rename_i dv hdv
  split at h
  · exact Except.noConfusion h
  rename_i d hd
  unfold Bonus.init at h
  split at h
  · exact Except.noConfusion h
  rename_i ps hps
  split at h
  · exact Except.noConfusion h
  rename_i fas hfas
  split at h
  · exact Except.noConfusion h
  rename_i as_ has
  cases h
  rw [lookup_ok_iff] at hl hpv hav hcv hscv hst hy hpn hqn hdv
  exact ⟨l, pv, av, cv, c, scv, sc, st, y, pn, qn, dv, d, ps, fas, as_,
    hl, hpv, hav, hcv, hc, hscv, hsc, hst, hy, hpn, hqn, hdv, hd,
    hps, hfas, has, rfl⟩

theorem query_response_from_json_inv {json : Obj} {qr : QueryResponse}
    (h : QueryResponse.from_json json = .ok qr) :
    ∃ tv ta tItems bv ba bItems,
      getField json "tossups" = some tv ∧
      pyIndex tv "questionArray" = .ok ta ∧
      pyIter ta = .ok tItems ∧
      listComp parseTossupItem tItems = .ok qr.tossups ∧
      getField json "bonuses" = some bv ∧
      pyIndex bv "questionArray" = .ok ba ∧
      pyIter ba = .ok bItems ∧
      listComp parseBonusItem bItems = .ok qr.bonuses ∧
      pyIndex tv "count" = .ok qr.tossups_found ∧
      pyIndex bv "count" = .ok qr.bonuses_found ∧
      getField json "queryString" = some qr.query_string := by
  unfold QueryResponse.from_json at h
  split at h
  · exact Except.noConfusion h
  rename_i tv htv
  split at h
  · exact Except.noConfusion h
  rename_i ta hta
  split at h
  · exact Except.noConfusion h
  rename_i tItems htItems
  split at h
  · exact Except.noConfusion h
  rename_i tossups htossups
  split at h
  · exact Except.noConfusion h
  rename_i bv hbv
  split at h
  · exact Except.noConfusion h
  rename_i ba hba
  split at h
  · exact Except.noConfusion h
  rename_i bItems hbItems
  split at h
  · exact Except.noConfusion h
  rename_i bonuses hbonuses
  split at h
  · exact Except.noConfusion h
  rename_i tc htc
  split at h
  · exact Except.noConfusion h
  rename_i bc hbc
  split at h
  · exact Except.noConfusion h
  rename_i qs hqs
  cases h
  rw [lookup_ok_iff] at htv hbv hqs
  exact ⟨tv, ta, tItems, bv, ba, bItems,
    htv, hta, htItems, htossups, hbv, hba, hbItems, hbonuses, htc, hbc, hqs⟩

/-! Claim theorems. -/

/-- C1: for each taxonomy enum, parsing any member's canonical string
succeeds and returns that member; conversely a successful parse returns a
member whose canonical string equals the parsed string, and distinct members
have distinct canonical strings, so every member round-trips through exactly
one canonical string in both directions. -/
theorem C1_taxonomy_roundtrip :
    (∀ c : Category, Category.parse (.jstr (Category.canonical c)) = .ok c) ∧
    (∀ (s : String) (c : Category),
      Category.parse (.jstr s) = .ok c → Category.canonical c = s) ∧
    (∀ c c' : Category, Category.canonical c = Category.canonical c' → c = c') ∧
    (∀ c : Subcategory, Subcategory.parse (.jstr (Subcategory.canonical c)) = .ok c) ∧
    (∀ (s : String) (c : Subcategory),
      Subcategory.parse (.jstr s) = .ok c → Subcategory.canonical c = s) ∧
    (∀ c c' : Subcategory, Subcategory.canonical c = Subcategory.canonical c' → c = c') ∧
    (∀ d : Difficulty, Difficulty.parse (Difficulty.canonical d) = .ok d) ∧
    (∀ (s : String) (d : Difficulty),
      Difficulty.parse s = .ok d → Difficulty.canonical d = s) ∧
    (∀ d d' : Difficulty, Difficulty.canonical d = Difficulty.canonical d' → d = d') := by
  refine ⟨?_, ?_, ?_, ?_, ?_, ?_, ?_, ?_, ?_⟩
  · intro c; cases c <;> rfl
  · intro s c h; exact category_parse_ok_canonical h
  · decide
  · intro c; cases c <;> rfl
  · intro s c h; exact subcategory_parse_ok_canonical h
  · decide
  · intro d; cases d <;> rfl
  · intro s d h; exact difficulty_parse_ok_canonical h
  · decide

/-- C1 witness: the round-trip evaluated at concrete members. -/
theorem C1_taxonomy_roundtrip_witness :
    Category.parse (.jstr (Category.canonical Category.SCIENCE)) = .ok Category.SCIENCE ∧
    Category.canonical Category.SCIENCE = "Science" ∧
    Difficulty.canonical Difficulty.OPEN = "10" :=
  ⟨C1_taxonomy_roundtrip.1 Category.SCIENCE,
   C1_taxonomy_roundtrip.2.1 "Science" Category.SCIENCE (by rfl),
   C1_taxonomy_roundtrip.2.2.2.2.2.2.2.1 "10" Difficulty.OPEN (by rfl)⟩

/-- C2: a string outside an enum's canonical set parses to a `ValueError`
(the `InvalidEnumValue` failure), with no fuzzy matching or case folding;
consequently `Tossup.from_json` and `Bonus.from_json` fail on any record
whose category, subcategory, or difficulty value is unrecognized. -/
theorem C2_invalid_enum_rejected :
    (∀ s : String, (∀ c : Category, Category.canonical c ≠ s) →
      Category.parse (.jstr s) = .error (.valueError s)) ∧
    (∀ s : String, (∀ c : Subcategory, Subcategory.canonical c ≠ s) →
      Subcategory.parse (.jstr s) = .error (.valueError s)) ∧
    (∀ s : String, (∀ d : Difficulty, Difficulty.canonical d ≠ s) →
      Difficulty.parse s = .error (.valueError s)) ∧
    (∀ (json : Obj) (s : String), getField json "category" = some (.jstr s) →
      (∀ c : Category, Category.canonical c ≠ s) →
      (∃ e, Tossup.from_json json = .error e) ∧
      (∃ e, Bonus.from_json json = .error e)) ∧
    (∀ (json : Obj) (s : String), getField json "subcategory" = some (.jstr s) →
      (∀ c : Subcategory, Subcategory.canonical c ≠ s) →
      (∃ e, Tossup.from_json json = .error e) ∧
      (∃ e, Bonus.from_json json = .error e)) ∧
    (∀ (json : Obj) (dv : JVal), getField json "difficulty" = some dv →
      (∀ d : Difficulty, Difficulty.canonical d ≠ pyStr dv) →
      (∃ e, Tossup.from_json json = .error e) ∧
      (∃ e, Bonus.from_json json = .error e)) := by
  refine ⟨fun s h => category_parse_not_canonical h,
    fun s h => subcategory_parse_not_canonical h,
    fun s h => difficulty_parse_not_canonical h, ?_, ?_, ?_⟩
  · intro json s hg hn
    constructor
    · cases hfj : Tossup.from_json json with
      | error e => exact ⟨e, rfl⟩
      | ok t =>
        obtain ⟨q, a, cv, c, scv, sc, st, y, pn, qn, dv, d,
          _, _, hcv, hc, _⟩ := tossup_from_json_inv hfj
        rw [hg] at hcv
        cases hcv
        rw [category_parse_not_canonical hn] at hc
        exact Except.noConfusion hc
    · cases hfj : Bonus.from_json json with
      | error e => exact ⟨e, rfl⟩
      | ok b =>
        obtain ⟨l, pv, av, cv, c, scv, sc, st, y, pn, qn, dv, d, ps, fas, as_,
          _, _, _, hcv, hc, _⟩ := bonus_from_json_inv hfj
        rw [hg] at hcv
        cases hcv
        rw [category_parse_not_canonical hn] at hc
        exact Except.noConfusion hc
  · intro json s hg hn
    constructor
    · cases hfj : Tossup.from_json json with
      | error e => exact ⟨e, rfl⟩
      | ok t =>
        obtain ⟨q, a, cv, c, scv, sc, st, y, pn, qn, dv, d,
          _, _, _, _, hscv, hsc, _⟩ := tossup_from_json_inv hfj
        rw [hg] at hscv
        cases hscv
        rw [subcategory_parse_not_canonical hn] at hsc
        exact Except.noConfusion hsc
    · cases hfj : Bonus.from_json json with
      | error e => exact ⟨e, rfl⟩
      | ok b =>
        obtain ⟨l, pv, av, cv, c, scv, sc, st, y, pn, qn, dv, d, ps, fas, as_,
          _, _, _, _, _, hscv, hsc, _⟩ := bonus_from_json_inv hfj
        rw [hg] at hscv
        cases hscv
        rw [subcategory_parse_not_canonical hn] at hsc
        exact Except.noConfusion hsc
  · intro json dv0 hg hn
    constructor
    · cases hfj : Tossup.from_json json with
      | error e => exact ⟨e, rfl⟩
      | ok t =>
        obtain ⟨q, a, cv, c, scv, sc, st, y, pn, qn, dv, d,
          _, _, _, _, _, _, _, _, _, _, hdv, hd, _⟩ := tossup_from_json_inv hfj
        rw [hg] at hdv
        cases hdv
        rw [difficulty_parse_not_canonical hn] at hd
        exact Except.noConfusion hd
    · cases hfj : Bonus.from_json json with
      | error e => exact ⟨e, rfl⟩
      | ok b =>
        obtain ⟨l, pv, av, cv, c, scv, sc, st, y, pn, qn, dv, d, ps, fas, as_,
          _, _, _, _, _, _, _, _, _, _, _, hdv, hd, _⟩ := bonus_from_json_inv hfj
        rw [hg] at hdv
        cases hdv
        rw [difficulty_parse_not_canonical hn] at hd
        exact Except.noConfusion hd

/-- C2 witness: the unrecognized string Bogus is rejected by the category
parser, and a record carrying it is rejected by `Tossup.from_json`. -/
theorem C2_invalid_enum_rejected_witness :
    Category.parse (.jstr "Bogus") = .error (.valueError "Bogus") ∧
    (∃ e, Tossup.from_json noSetNameBadCatJson = .error e) :=
  ⟨C2_invalid_enum_rejected.1 "Bogus" (by decide),
   (C2_invalid_enum_rejected.2.2.2.1 noSetNameBadCatJson "Bogus" rfl (by decide)).1⟩

theorem tossup_from_json_difficulty_congr {v w : JVal} {base : Obj}
    (hvw : pyStr v = pyStr w) :
    Tossup.from_json (("difficulty", v) :: base) =
      Tossup.from_json (("difficulty", w) :: base) := by
  have hne : ∀ (k' : String), ("difficulty" == k') = false → ∀ u : JVal,
      lookup (("difficulty", u) :: base) k' = lookup base k' := by
    intro k' hk u
    unfold lookup
    rw [getField_cons_ne hk]
  have hself : ∀ u : JVal,
      lookup (("difficulty", u) :: base) "difficulty" = .ok u := by
    intro u
    unfold lookup
    rw [getField_cons_self]
  have hgd : ∀ u dflt : JVal,
      getD (("difficulty", u) :: base) "formatted_answer" dflt =
        getD base "formatted_answer" dflt := by
    intro u dflt
    unfold getD
    rw [getField_cons_ne (by decide)]
  unfold Tossup.from_json
  simp only [hne "question" (by decide), hne "answer" (by decide),
    hne "category" (by decide), hne "subcategory" (by decide),
    hne "setName" (by decide), hne "setYear" (by decide),
    hne "packetNumber" (by decide), hne "questionNumber" (by decide),
    hself, hgd, hvw]

theorem bonus_from_json_difficulty_congr {v w : JVal} {base : Obj}
    (hvw : pyStr v = pyStr w) :
    Bonus.from_json (("difficulty", v) :: base) =
      Bonus.from_json (("difficulty", w) :: base) := by
  have hne : ∀ (k' : String), ("difficulty" == k') = false → ∀ u : JVal,
      lookup (("difficulty", u) :: base) k' = lookup base k' := by
    intro k' hk u
    unfold lookup
    rw [getField_cons_ne hk]
  have hself : ∀ u : JVal,
      lookup (("difficulty", u) :: base) "difficulty" = .ok u := by
    intro u
    unfold lookup
    rw [getField_cons_self]
  have hgd : ∀ u dflt : JVal,
      getD (("difficulty", u) :: base) "formatted_answers" dflt =
        getD base "formatted_answers" dflt := by
    intro u dflt
    unfold getD
    rw [getField_cons_ne (by decide)]
  unfold Bonus.from_json
  simp only [hne "leadin" (by decide), hne "parts" (by decide),
    hne "answers" (by decide), hne "category" (by decide),
    hne "subcategory" (by decide), hne "setName" (by decide),
    hne "setYear" (by decide), hne "packetNumber" (by decide),
    hne "questionNumber" (by decide), hself, hgd, hvw]

/-- C3: difficulty parsing first coerces its input to string form.  For
every level `d` in `0..10`, a record carrying the JSON integer `d` and the
otherwise-identical record carrying the numeric string `toString d`
normalize identically through `Tossup.from_json` and `Bonus.from_json`, and
the coerced string parses to a `Difficulty` member shared by both shapes. -/
theorem C3_difficulty_coercion (d : Nat) (hd : d ≤ 10) (base : Obj) :
    Tossup.from_json (("difficulty", .jnum d) :: base) =
      Tossup.from_json (("difficulty", .jstr (toString d)) :: base) ∧
    Bonus.from_json (("difficulty", .jnum d) :: base) =
      Bonus.from_json (("difficulty", .jstr (toString d)) :: base) ∧
    ∃ lvl : Difficulty, Difficulty.parse (pyStr (.jnum d)) = .ok lvl ∧
      Difficulty.parse (pyStr (.jstr (toString d))) = .ok lvl := by
  refine ⟨tossup_from_json_difficulty_congr rfl,
    bonus_from_json_difficulty_congr rfl, ?_⟩
  interval_cases d <;> exact ⟨_, rfl, rfl⟩

/-- C3 witness: level 7 as an integer and as the string 7 in an otherwise
well-formed tossup payload. -/
theorem C3_difficulty_coercion_witness :
    7 ≤ 10 ∧
    Tossup.from_json (("difficulty", .jnum 7) :: demoTossupJson) =
      Tossup.from_json (("difficulty", .jstr (toString 7)) :: demoTossupJson) ∧
    ∃ lvl : Difficulty, Difficulty.parse (pyStr (.jnum 7)) = .ok lvl ∧
      Difficulty.parse (pyStr (.jstr (toString 7))) = .ok lvl :=
  ⟨by decide,
   (C3_difficulty_coercion 7 (by decide) demoTossupJson).1,
   (C3_difficulty_coercion 7 (by decide) demoTossupJson).2.2⟩

/-- C4: for every record accepted by `Tossup.from_json` (resp.
`Bonus.from_json`), an absent or falsy `formatted_answer` (resp.
`formatted_answers`) makes the stored field equal the stored `answer` (resp.
`answers`, wholesale); a present truthy value is stored as given (for a
bonus, as its tuple of elements); hence a tossup's `formatted_answer` is
never empty when its `answer` is non-empty. -/
theorem C4_formatted_answer_fallback :
    (∀ (json : Obj) (t : Tossup), Tossup.from_json json = .ok t →
      ((getField json "formatted_answer" = none ∨
        (∃ v, getField json "formatted_answer" = some v ∧ pyTruthy v = false)) →
        t.formatted_answer = t.answer) ∧
      (∀ v, getField json "formatted_answer" = some v → pyTruthy v = true →
        t.formatted_answer = v) ∧
      (pyTruthy t.answer = true → pyTruthy t.formatted_answer = true)) ∧
    (∀ (json : Obj) (b : Bonus), Bonus.from_json json = .ok b →
      ((getField json "formatted_answers" = none ∨
        (∃ v, getField json "formatted_answers" = some v ∧ pyTruthy v = false)) →
        b.formatted_answers = b.answers) ∧
      (∀ v fs, getField json "formatted_answers" = some v → pyTruthy v = true →
        pyIter v = .ok fs → b.formatted_answers = fs)) := by
  constructor
  · intro json t hfj
    obtain ⟨q, a, cv, c, scv, sc, st, y, pn, qn, dv, d,
      _, _, _, _, _, _, _, _, _, _, _, _, ht⟩ := tossup_from_json_inv hfj
    subst ht
    refine ⟨?_, ?_, ?_⟩
    · rintro (hnone | ⟨v, hsome, hfalse⟩)
      · simp [Tossup.init, getD, hnone]
      · simp [Tossup.init, getD, hsome, hfalse]
    · intro v hsome htrue
      simp [Tossup.init, getD, hsome, htrue]
    · intro hta
      have hta' : pyTruthy a = true := hta
      show pyTruthy (if pyTruthy (getD json "formatted_answer" a) then
        getD json "formatted_answer" a else a) = true
      cases hf : pyTruthy (getD json "formatted_answer" a)
      · simp [hf, hta']
      · simp [hf]
  · intro json b hfj
    obtain ⟨l, pv, av, cv, c, scv, sc, st, y, pn, qn, dv, d, ps, fas, as_,
      _, _, _, _, _, _, _, _, _, _, _, _, _, _, hfas, has, hb⟩ :=
      bonus_from_json_inv hfj
    subst hb
    constructor
    · rintro (hnone | ⟨v, hsome, hfalse⟩)
      · rw [getD, hnone] at hfas
        simp only [Option.getD_none, ite_self] at hfas
        have heq := has.symm.trans hfas
        cases heq
        rfl
      · rw [getD, hsome] at hfas
        simp only [Option.getD_some, hfalse, Bool.false_eq_true, if_false] at hfas
        have heq := has.symm.trans hfas
        cases heq
        rfl
    · intro v fs hsome htrue hiter
      rw [getD, hsome] at hfas
      simp only [Option.getD_some, htrue, if_true] at hfas
      have heq := hiter.symm.trans hfas
      cases heq
      rfl

/-- C4 witness: the demo payloads carry no formatted answers, and the
constructed entities fall back to their answers. -/
theorem C4_formatted_answer_fallback_witness :
    Tossup.from_json demoTossupJson = .ok demoTossup ∧
    demoTossup.formatted_answer = demoTossup.answer ∧
    Bonus.from_json demoBonusJson = .ok demoBonus ∧
    demoBonus.formatted_answers = demoBonus.answers :=
  ⟨rfl,
   (C4_formatted_answer_fallback.1 demoTossupJson demoTossup rfl).1 (Or.inl rfl),
   rfl,
   (C4_formatted_answer_fallback.2 demoBonusJson demoBonus rfl).1 (Or.inl rfl)⟩

/-- C5 counterexample: `Bonus.from_json` accepts a record whose `parts` has
one element while `answers` has two, and the constructed bonus violates the
claimed length equality, so the invariant does not hold for every accepted
record. -/
theorem C5_length_invariant_counterexample :
    Bonus.from_json mismatchedBonusJson = .ok mismatchedBonus ∧
    mismatchedBonus.parts.length = 1 ∧
    mismatchedBonus.answers.length = 2 ∧
    mismatchedBonus.formatted_answers.length = 2 ∧
    ¬(mismatchedBonus.parts.length = mismatchedBonus.answers.length ∧
      mismatchedBonus.answers.length = mismatchedBonus.formatted_answers.length) :=
  ⟨rfl, rfl, rfl, rfl, by decide⟩

/-- C5 amended: for every record `Bonus.from_json` accepts, the three
sequences are stored verbatim in input order (no re-sorting, no
deduplication), `formatted_answers` falls back wholesale to `answers` when
absent or falsy, and the length equality
`len parts = len answers = len formatted_answers` holds provided the input
`parts` and `answers` iterate to sequences of equal length and
`formatted_answers` is absent or falsy. -/
theorem C5_parallel_sequences_amended :
    ∀ (json : Obj) (b : Bonus), Bonus.from_json json = .ok b →
      (∀ pv ps, getField json "parts" = some pv → pyIter pv = .ok ps →
        b.parts = ps) ∧
      (∀ av as_, getField json "answers" = some av → pyIter av = .ok as_ →
        b.answers = as_) ∧
      ((getField json "formatted_answers" = none ∨
        (∃ v, getField json "formatted_answers" = some v ∧ pyTruthy v = false)) →
        b.formatted_answers = b.answers) ∧
      (∀ pv ps av as_, getField json "parts" = some pv → pyIter pv = .ok ps →
        getField json "answers" = some av → pyIter av = .ok as_ →
        ps.length = as_.length →
        (getField json "formatted_answers" = none ∨
          (∃ v, getField json "formatted_answers" = some v ∧ pyTruthy v = false)) →
        b.parts.length = b.answers.length ∧
        b.answers.length = b.formatted_answers.length) := by
  intro json b hfj
  obtain ⟨l, pv0, av0, cv, c, scv, sc, st, y, pn, qn, dv, d, ps0, fas0, as0,
    _, hpv0, hav0, _, _, _, _, _, _, _, _, _, _, hps0, hfas0, has0, hb⟩ :=
    bonus_from_json_inv hfj
  subst hb
  have hfallback : (getField json "formatted_answers" = none ∨
      (∃ v, getField json "formatted_answers" = some v ∧ pyTruthy v = false)) →
      fas0 = as0 := by
    rintro (hnone | ⟨v, hsome, hfalse⟩)
    · rw [getD, hnone] at hfas0
      simp only [Option.getD_none, ite_self] at hfas0
      have heq := has0.symm.trans hfas0
      cases heq
      rfl
    · rw [getD, hsome] at hfas0
      simp only [Option.getD_some, hfalse, Bool.false_eq_true, if_false] at hfas0
      have heq := has0.symm.trans hfas0
      cases heq
      rfl
  refine ⟨?_, ?_, ?_, ?_⟩
  · intro pv ps hg hi
    rw [hpv0] at hg
    cases hg
    have heq := hps0.symm.trans hi
    cases heq
    rfl
  · intro av as_ hg hi
    rw [hav0] at hg
    cases hg
    have heq := has0.symm.trans hi
    cases heq
    rfl
  · exact hfallback
  · intro pv ps av as_ hgp hip hga hia hlen habs
    rw [hpv0] at hgp
    cases hgp
    rw [hav0] at hga
    cases hga
    have h1 := hps0.symm.trans hip
    cases h1
    have h2 := has0.symm.trans hia
    cases h2
    have h3 := hfallback habs
    subst h3
    exact ⟨hlen, rfl⟩

/-- C5 witness: the demo bonus payload with three parallel parts and answers
satisfies the amended properties. -/
theorem C5_parallel_sequences_amended_witness :
    Bonus.from_json demoBonusJson = .ok demoBonus ∧
    demoBonus.parts = [.jstr "p1", .jstr "p2", .jstr "p3"] ∧
    demoBonus.parts.length = demoBonus.answers.length ∧
    demoBonus.answers.length = demoBonus.formatted_answers.length :=
  ⟨rfl,
   (C5_parallel_sequences_amended demoBonusJson demoBonus rfl).1 _ _ rfl rfl,
   ((C5_parallel_sequences_amended demoBonusJson demoBonus rfl).2.2.2
     _ _ _ _ rfl rfl rfl rfl (by decide) (Or.inl rfl)).1,
   ((C5_parallel_sequences_amended demoBonusJson demoBonus rfl).2.2.2
     _ _ _ _ rfl rfl rfl rfl (by decide) (Or.inl rfl)).2⟩

/-- C6: absence of a hard-required content field (`question` or `answer` for
a tossup; `leadin`, `parts` or `answers` for a bonus) makes the constructor
fail with a missing-field `KeyError` and produce no entity. -/
theorem C6_required_content_fields :
    (∀ json : Obj,
      getField json "question" = none ∨ getField json "answer" = none →
      ∃ k, Tossup.from_json json = .error (.keyError k)) ∧
    (∀ json : Obj,
      getField json "leadin" = none ∨ getField json "parts" = none ∨
        getField json "answers" = none →
      ∃ k, Bonus.from_json json = .error (.keyError k)) := by
  constructor
  · intro json h
    cases hq : getField json "question" with
    | none =>
      exact ⟨"question", by simp only [Tossup.from_json, lookup_none hq]⟩
    | some qv =>
      have ha : getField json "answer" = none := by
        rcases h with h | h
        · rw [hq] at h
          exact Option.noConfusion h
        · exact h
      have hlq : lookup json "question" = .ok qv := lookup_ok_iff.mpr hq
      exact ⟨"answer", by simp only [Tossup.from_json, hlq, lookup_none ha]⟩
  · intro json h
    cases hl : getField json "leadin" with
    | none =>
      exact ⟨"leadin", by simp only [Bonus.from_json, lookup_none hl]⟩
    | some lv =>
      have hlv : lookup json "leadin" = .ok lv := lookup_ok_iff.mpr hl
      cases hp : getField json "parts" with
      | none =>
        exact ⟨"parts", by simp only [Bonus.from_json, hlv, lookup_none hp]⟩
      | some pv =>
        have hpv : lookup json "parts" = .ok pv := lookup_ok_iff.mpr hp
        have ha : getField json "answers" = none := by
          rcases h with h | h | h
          · rw [hl] at h
            exact Option.noConfusion h
          · rw [hp] at h
            exact Option.noConfusion h
          · exact h
        exact ⟨"answers", by simp only [Bonus.from_json, hlv, hpv, lookup_none ha]⟩

/-- C6 witness: a payload missing `answer` is rejected with a `KeyError`. -/
theorem C6_required_content_fields_witness :
    getField noAnswerTossupJson "answer" = none ∧
    (∃ k, Tossup.from_json noAnswerTossupJson = .error (.keyError k)) :=
  ⟨rfl, C6_required_content_fields.1 noAnswerTossupJson (Or.inr rfl)⟩

/-- C7: whenever `QueryResponse.from_json` succeeds, its tossups (resp.
bonuses) list is exactly the per-element parse of `tossups.questionArray`
(resp. `bonuses.questionArray`) in order — the comprehension equation, which
also forces equal lengths — while both `count` fields and `queryString` are
copied verbatim into `tossups_found`, `bonuses_found` and `query_string`. -/
theorem C7_query_response_mapping :
    ∀ (json : Obj) (qr : QueryResponse),
      QueryResponse.from_json json = .ok qr →
      ∃ tv ta tItems bv ba bItems,
        getField json "tossups" = some tv ∧
        pyIndex tv "questionArray" = .ok ta ∧
        pyIter ta = .ok tItems ∧
        listComp parseTossupItem tItems = .ok qr.tossups ∧
        qr.tossups.length = tItems.length ∧
        getField json "bonuses" = some bv ∧
        pyIndex bv "questionArray" = .ok ba ∧
        pyIter ba = .ok bItems ∧
        listComp parseBonusItem bItems = .ok qr.bonuses ∧
        qr.bonuses.length = bItems.length ∧
        pyIndex tv "count" = .ok qr.tossups_found ∧
        pyIndex bv "count" = .ok qr.bonuses_found ∧
        getField json "queryString" = some qr.query_string := by
  intro json qr h
  obtain ⟨tv, ta, tItems, bv, ba, bItems, htv, hta, hti, htc,
    hbv, hba, hbi, hbc, hct, hcb, hqs⟩ := query_response_from_json_inv h
  exact ⟨tv, ta, tItems, bv, ba, bItems, htv, hta, hti, htc,
    listComp_ok_length htc, hbv, hba, hbi, hbc,
    listComp_ok_length hbc, hct, hcb, hqs⟩

/-- C7 witness: the demo query payload parses to the demo aggregate, whose
tossup count 57 exceeds its single returned tossup. -/
theorem C7_query_response_mapping_witness :
    QueryResponse.from_json demoQueryJson = .ok demoQueryResponse ∧
    demoQueryResponse.tossups.length = 1 ∧
    demoQueryResponse.tossups_found = .jnum 57 ∧
    (∃ tv ta tItems bv ba bItems,
      getField demoQueryJson "tossups" = some tv ∧
      pyIndex tv "questionArray" = .ok ta ∧
      pyIter ta = .ok tItems ∧
      listComp parseTossupItem tItems = .ok demoQueryResponse.tossups ∧
      demoQueryResponse.tossups.length = tItems.length ∧
      getField demoQueryJson "bonuses" = some bv ∧
      pyIndex bv "questionArray" = .ok ba ∧
      pyIter ba = .ok bItems ∧
      listComp parseBonusItem bItems = .ok demoQueryResponse.bonuses ∧
      demoQueryResponse.bonuses.length = bItems.length ∧
      pyIndex tv "count" = .ok demoQueryResponse.tossups_found ∧
      pyIndex bv "count" = .ok demoQueryResponse.bonuses_found ∧
      getField demoQueryJson "queryString" = some demoQueryResponse.query_string) :=
  ⟨rfl, rfl, rfl,
   C7_query_response_mapping demoQueryJson demoQueryResponse rfl⟩

/-- C8: one malformed record aborts the whole construction.  If an element
of `tossups.questionArray` fails while all elements before it succeed,
`QueryResponse.from_json` fails with exactly that element's error; likewise
for `bonuses.questionArray` once all tossups parse.  No partial aggregate is
returned. -/
theorem C8_first_failure_aborts :
    ∀ (json : Obj) (tv ta : JVal) (tItems : List JVal),
      getField json "tossups" = some tv →
      pyIndex tv "questionArray" = .ok ta →
      pyIter ta = .ok tItems →
      (∀ pre x post e, tItems = pre ++ x :: post →
        (∀ y ∈ pre, ∃ r, parseTossupItem y = .ok r) →
        parseTossupItem x = .error e →
        QueryResponse.from_json json = .error e) ∧
      (∀ ts bv ba bItems pre x post e,
        listComp parseTossupItem tItems = .ok ts →
        getField json "bonuses" = some bv →
        pyIndex bv "questionArray" = .ok ba →
        pyIter ba = .ok bItems →
        bItems = pre ++ x :: post →
        (∀ y ∈ pre, ∃ r, parseBonusItem y = .ok r) →
        parseBonusItem x = .error e →
        QueryResponse.from_json json = .error e) := by
  intro json tv ta tItems htv hta hti
  have hltv : lookup json "tossups" = .ok tv := lookup_ok_iff.mpr htv
  constructor
  · intro pre x post e hsplit hpre hx
    subst hsplit
    have hcomp : listComp parseTossupItem (pre ++ x :: post) = .error e :=
      listComp_append_error hpre hx
    simp only [QueryResponse.from_json, hltv, hta, hti, hcomp]
  · intro ts bv ba bItems pre x post e htc hbv hba hbi hsplit hpre hx
    subst hsplit
    have hlbv : lookup json "bonuses" = .ok bv := lookup_ok_iff.mpr hbv
    have hcomp : listComp parseBonusItem (pre ++ x :: post) = .error e :=
      listComp_append_error hpre hx
    simp only [QueryResponse.from_json, hltv, hta, hti, htc, hlbv, hba, hbi,
      hcomp]

/-- C8 witness: a query payload whose second tossup record is missing
`answer` makes the whole construction fail with that `KeyError`. -/
theorem C8_first_failure_aborts_witness :
    QueryResponse.from_json badQueryJson = .error (.keyError "answer") :=
  (C8_first_failure_aborts badQueryJson _ _ _ rfl rfl rfl).1
    [.jobj demoTossupJson] (.jobj noAnswerTossupJson) [] (.keyError "answer")
    rfl
    (by
      intro y hy
      simp only [List.mem_singleton] at hy
      subst hy
      exact ⟨demoTossup, rfl⟩)
    rfl

/-- C9 counterexample: a bonus constructed by `Bonus.from_json` with parts
p1, p2, p3 renders with single newlines between parts, not blank lines, so
the claimed rendering (parts joined by blank lines) is wrong for any bonus
with at least two parts. -/
theorem C9_render_counterexample :
    Bonus.from_json demoBonusJson = .ok demoBonus ∧
    Bonus.render demoBonus = .ok "p1\np2\np3" ∧
    Bonus.render demoBonus ≠
      .ok (String.intercalate "\n\n" ["p1", "p2", "p3"]) := by
  refine ⟨rfl, rfl, ?_⟩
  intro h
  rw [show Bonus.render demoBonus = .ok "p1\np2\np3" from rfl] at h
  injection h with h2
  exact absurd h2 (by decide)

/-- C9 amended: a Tossup renders as exactly its question text; a Bonus
renders as its parts joined by single newlines; a QueryResponse renders as
its tossup renderings joined by blank lines, then a three-newline separator,
then its bonus renderings joined by blank lines. -/
theorem C9_render_amended :
    (∀ (t : Tossup) (s : String), t.question = .jstr s →
      Tossup.render t = .ok s) ∧
    (∀ (b : Bonus) (ss : List String), b.parts = ss.map JVal.jstr →
      Bonus.render b = .ok (String.intercalate "\n" ss)) ∧
    (∀ (qr : QueryResponse) (ts bs : List String),
      listComp Tossup.render qr.tossups = .ok ts →
      listComp Bonus.render qr.bonuses = .ok bs →
      QueryResponse.render qr =
        .ok (String.intercalate "\n\n" ts ++ "\n\n\n" ++
          String.intercalate "\n\n" bs)) := by
  refine ⟨?_, ?_, ?_⟩
  · intro t s h
    unfold Tossup.render
    rw [h]
    rfl
  · intro b ss h
    unfold Bonus.render
    rw [h]
    simp only [listComp_map_jstr]
  · intro qr ts bs ht hb
    unfold QueryResponse.render
    simp only [ht, hb]

/-- C9 witness: the demo aggregate with one tossup and one bonus renders as
the question text, the separator, and the newline-joined bonus parts. -/
theorem C9_render_amended_witness :
    QueryResponse.render demoQueryResponse =
      .ok (String.intercalate "\n\n" ["Q?"] ++ "\n\n\n" ++
        String.intercalate "\n\n" ["p1\np2\np3"]) :=
  C9_render_amended.2.2 demoQueryResponse ["Q?"] ["p1\np2\np3"] rfl rfl

/-- C10 counterexample: a record lacking `setName` whose `category` value is
invalid fails with the category `ValueError`, not a missing-field
`KeyError`, because the category argument is evaluated before `setName`; so
absence of one of the listed keys does not always surface as a
missing-field error. -/
theorem C10_metadata_keyerror_counterexample :
    getField noSetNameBadCatJson "setName" = none ∧
    Tossup.from_json noSetNameBadCatJson = .error (.valueError "Bogus") ∧
    ¬∃ k, Tossup.from_json noSetNameBadCatJson = .error (.keyError k) := by
  refine ⟨rfl, rfl, ?_⟩
  rintro ⟨k, hk⟩
  rw [show Tossup.from_json noSetNameBadCatJson =
    .error (.valueError "Bogus") from rfl] at hk
  injection hk with h2
  exact PyErr.noConfusion h2

/-- C10 amended: the metadata keys `category`, `subcategory`, `setName`,
`setYear`, `packetNumber`, `questionNumber` and `difficulty` are required as
well — absence of any of them makes `Tossup.from_json` and `Bonus.from_json`
fail and produce no object, though the reported error may be an
invalid-enum `ValueError` from a field evaluated earlier rather than a
missing-field `KeyError` — and only `formatted_answer(s)` is truly
optional: the demo records lacking exactly that key construct
successfully. -/
theorem C10_metadata_fields_required_amended :
    (∀ json : Obj,
      getField json "category" = none ∨ getField json "subcategory" = none ∨
      getField json "setName" = none ∨ getField json "setYear" = none ∨
      getField json "packetNumber" = none ∨
      getField json "questionNumber" = none ∨
      getField json "difficulty" = none →
      (∃ e, Tossup.from_json json = .error e) ∧
      (∃ e, Bonus.from_json json = .error e)) ∧
    (getField demoTossupJson "formatted_answer" = none ∧
      Tossup.from_json demoTossupJson = .ok demoTossup) ∧
    (getField demoBonusJson "formatted_answers" = none ∧
      Bonus.from_json demoBonusJson = .ok demoBonus) := by
  refine ⟨?_, ⟨rfl, rfl⟩, ⟨rfl, rfl⟩⟩
  intro json hmiss
  constructor
  · cases hfj : Tossup.from_json json with
    | error e => exact ⟨e, rfl⟩
    | ok t =>
      obtain ⟨q, a, cv, c, scv, sc, st, y, pn, qn, dv, d,
        _, _, hcv, _, hscv, _, hst, hy, hpn, hqn, hdv, _, _⟩ :=
        tossup_from_json_inv hfj
      rcases hmiss with h | h | h | h | h | h | h <;> simp_all
  · cases hfj : Bonus.from_json json with
    | error e => exact ⟨e, rfl⟩
    | ok b =>
      obtain ⟨l, pv, av, cv, c, scv, sc, st, y, pn, qn, dv, d, ps, fas, as_,
        _, _, _, hcv, _, hscv, _, hst, hy, hpn, hqn, hdv, _, _, _, _, _⟩ :=
        bonus_from_json_inv hfj
      rcases hmiss with h | h | h | h | h | h | h <;> simp_all

/-- C10 witness: the payload lacking `setName` (with an invalid category as
well) is rejected by both constructors. -/
theorem C10_metadata_fields_required_amended_witness :
    (∃ e, Tossup.from_json noSetNameBadCatJson = .error e) ∧
    (∃ e, Bonus.from_json noSetNameBadCatJson = .error e) :=
  C10_metadata_fields_required_amended.1 noSetNameBadCatJson
    (Or.inr (Or.inr (Or.inl rfl)))
